import Mathlib

/-!
# Verification of the AsviCare clinic-tracking data-access layer

Shallow embedding of the repository's client-side authorization / data-access
layer (`src/services/db.ts`), its profile resolver
(`src/services/db.ts` + `src/components/UserProfileContext.tsx`),
its offline cache and pending-operation queue (`src/services/cache.ts`),
its environment-configuration fallback (`src/services/supabase.ts`,
`src/services/authService.ts`) and its form validation (`src/validations.ts`,
zod 3 parse semantics).

Conventions of the embedding:
* The hosted Supabase backend is modelled as an in-memory database `DB`
  (one list of rows per table); a PostgREST query chain
  `.from(t).select().eq(c, v)...` becomes a `List.filter` chain over that
  table, and `.order(c)` becomes a structural insertion sort (`sortBy`).
* The possibly-`null` Supabase client handle (`supabase.ts` exports
  `createClient(...)` or `null`) is modelled by a boolean `sb`
  ("the handle is non-null"); JavaScript code that dereferences the handle
  without a null check fails with `DbErr.nullClientDeref` (the `TypeError`
  the original code would throw) when `sb = false`.
* Thrown JS exceptions become `Except DbErr` / explicit error results;
  database-generated values (`gen_random_uuid()`, `NOW()`) become explicit
  `freshId` / `now` parameters.
* JavaScript `Date` parsing is modelled by an explicit parameter
  `parse : String → Option Int` (epoch milliseconds, `none` = `NaN`);
  comparisons involving `NaN` are `false`, as in JavaScript.
-/

/-- Lexicographic ≤ on character lists (PostgREST string ordering on the
ISO-8601 timestamp / name columns used by `.order`). -/
def lexLe : List Char → List Char → Bool
  | [], _ => true
  | _ :: _, [] => false
  | a :: as, b :: bs => if a = b then lexLe as bs else decide (a < b)

/-- String comparison used for `.order` / `.gte` / `.lt` / `.lte` filters. -/
def strLe (a b : String) : Bool := lexLe a.toList b.toList

/-- Insertion step of the stable sort modelling `.order(column)`. -/
def insertBy {α : Type} (le : α → α → Bool) (a : α) : List α → List α
  | [] => [a]
  | b :: bs => if le a b then a :: b :: bs else b :: insertBy le a bs

/-- Stable sort modelling `.order(column)`; only the row *order* differs from
the unsorted query result, which no claim depends on. -/
def sortBy {α : Type} (le : α → α → Bool) : List α → List α
  | [] => []
  | a :: as => insertBy le a (sortBy le as)

theorem mem_insertBy {α : Type} (le : α → α → Bool) (a x : α) (l : List α) :
    x ∈ insertBy le a l ↔ x = a ∨ x ∈ l := by
  induction l with
  | nil => simp [insertBy]
  | cons b bs ih =>
      by_cases h : le a b = true
      · simp [insertBy, h]
      · simp only [insertBy, if_neg h, List.mem_cons, ih]
        tauto

theorem mem_sortBy {α : Type} (le : α → α → Bool) (x : α) (l : List α) :
    x ∈ sortBy le l ↔ x ∈ l := by
  induction l with
  | nil => simp [sortBy]
  | cons a as ih => simp [sortBy, mem_insertBy, ih]

/-- `src/components/UserProfileContext.tsx` — the resolved clinic-scoped
profile `{ id, clinic_id, auth_user_id, role }`. -/
structure Profile where
  id : String
  clinic_id : String
  auth_user_id : String
  role : String
deriving DecidableEq, Repr

/-- A row of the `patients` table (`src/types.ts` `Patient` plus the
`user_id` scoping column used by every query in `src/services/db.ts`;
the demographic columns that no query inspects — phone, age, gender,
photo_url, lmpDate, gravida, para, address, allergies, bloodgroup, notes —
are carried opaquely in `demo`). -/
structure PatientRow where
  id : String
  clinic_id : String
  user_id : String
  created_by : String
  name : String
  doctortype : String
  created_at : String
  demo : String
deriving DecidableEq, Repr

/-- A row of the `visits` table (`src/types.ts` `Visit` plus the `user_id`
scoping column; `nextVisit`/`photo_url` carried opaquely in `extra`). -/
structure VisitRow where
  id : String
  patient_id : String
  clinic_id : String
  user_id : String
  doctortype : String
  note : String
  fee : ℚ
  created_at : String
  extra : String
deriving DecidableEq, Repr

/-- A row of the `expenses` table (`src/types.ts` `Expense` plus the
`user_id` scoping column). -/
structure ExpenseRow where
  id : String
  clinic_id : String
  user_id : String
  amount : ℚ
  category : String
  note : String
  date : String
  doctortype : String
deriving DecidableEq, Repr

/-- A row of the `appointments` table (`src/types.ts` `Appointment`). -/
structure AppointmentRow where
  id : String
  patient_id : Option String
  user_id : String
  title : Option String
  start_time : String
  end_time : String
  notes : Option String
  doctortype : String
  status : Option String
deriving DecidableEq, Repr

/-- The in-memory model of the hosted relational database. -/
structure DB where
  patients : List PatientRow
  visits : List VisitRow
  expenses : List ExpenseRow
  appointments : List AppointmentRow
deriving DecidableEq, Repr

/-- Errors surfaced by the data-access layer (`src/services/db.ts`):
thrown JS `Error`s, the `TypeError` raised by dereferencing a `null`
Supabase client, and PostgREST `.single()` violations. -/
inductive DbErr where
  /-- `throw new Error('User not authenticated')` -/
  | notAuthenticated : DbErr
  /-- `TypeError` from `supabase.from(...)` when `supabase` is `null` -/
  | nullClientDeref : DbErr
  /-- `throw new Error('Supabase client not configured. ...')` -/
  | notConfigured : DbErr
  /-- `.single()` did not match exactly one row (PGRST116-style error) -/
  | singleRowViolation : DbErr
  /-- `throw new Error('<field> is required')` in `createAppointment` -/
  | requiredField : String → DbErr
deriving DecidableEq, Repr

/-- `if (mode) query = query.eq('doctortype', mode)` — the optional
doctor-mode filter applied by list queries. -/
def modeFilter {α : Type} (doctortype : α → String) (mode : Option String)
    (l : List α) : List α :=
  match mode with
  | none => l
  | some m => l.filter (fun r => doctortype r == m)

/-- Sum of a numeric column, modelling `rows.reduce((sum, r) => sum + f(r), 0)`. -/
def sumBy {α : Type} (f : α → ℚ) (l : List α) : ℚ :=
  l.foldl (fun s a => s + f a) 0

/-- JavaScript `x || null` on an optional string (empty string is falsy). -/
def orNull : Option String → Option String
  | none => none
  | some s => if s = "" then none else some s

/-- The profile shape demanded by `db.createAppointment`
(`{ id, clinic_id, auth_user_id, role, doctortype }`). -/
structure ApptProfile where
  id : String
  clinic_id : String
  auth_user_id : String
  role : String
  doctortype : String
deriving DecidableEq, Repr

/-- Payload of `db.createPatient`:
`Omit<Patient, 'id' | 'clinic_id' | 'user_id' | 'created_at'>`. -/
structure PatientPayload where
  created_by : String
  name : String
  doctortype : String
  demo : String
deriving DecidableEq, Repr

/-- Payload of `db.addVisit`: `Omit<Visit, 'id' | 'created_at' | 'created_by'>`
— note that it still contains a caller-supplied `clinic_id`. -/
structure VisitPayload where
  patient_id : String
  clinic_id : String
  doctortype : String
  note : String
  fee : ℚ
  extra : String
deriving DecidableEq, Repr

/-- Payload of `db.createExpense`:
`Omit<Expense, 'id' | 'created_at' | 'created_by'>` — note that it still
contains a caller-supplied `clinic_id`. -/
structure ExpensePayload where
  clinic_id : String
  amount : ℚ
  category : String
  note : String
  date : String
  doctortype : String
deriving DecidableEq, Repr

/-- Argument of `db.createAppointment` (`CreateAppointmentForm`). -/
structure CreateAppointmentForm where
  patient_id : Option String
  title : Option String
  start_time : String
  end_time : String
  notes : Option String
deriving DecidableEq, Repr

namespace db

/-- `db.createPatient` (`src/services/db.ts:47`): rejects a missing profile,
dereferences the (possibly null) client, and inserts
`{ ...patient, clinic_id: profile.clinic_id, user_id: profile.auth_user_id,
created_at: new Date().toISOString() }`, returning the inserted row. -/
def createPatient (patient : PatientPayload) (profile : Option Profile)
    (sb : Bool) (freshId now : String) (dbase : DB) :
    DB × Except DbErr PatientRow :=
  match profile with
  | none => (dbase, .error .notAuthenticated)
  | some p =>
      if ¬sb then (dbase, .error .nullClientDeref) else
      let row : PatientRow :=
        { id := freshId
          clinic_id := p.clinic_id
          user_id := p.auth_user_id
          created_by := patient.created_by
          name := patient.name
          doctortype := patient.doctortype
          created_at := now
          demo := patient.demo }
      ({ dbase with patients := dbase.patients ++ [row] }, .ok row)

/-- `db.getPatients` (`src/services/db.ts:63`): returns `[]` when no profile
is passed; otherwise filters by `user_id`, additionally by `clinic_id` when
`profile.clinic_id` is truthy, optionally by `doctortype`, ordered by name. -/
def getPatients (userId : String) (profile : Option Profile)
    (mode : Option String) (sb : Bool) (dbase : DB) :
    Except DbErr (List PatientRow) :=
  match profile with
  | none => .ok []
  | some p =>
      if ¬sb then .error .nullClientDeref else
      let q1 := dbase.patients.filter (fun r => r.user_id == userId)
      let q2 := if p.clinic_id ≠ "" then
                  q1.filter (fun r => r.clinic_id == p.clinic_id)
                else q1
      let q3 := modeFilter PatientRow.doctortype mode q2
      .ok (sortBy (fun a b => strLe a.name b.name) q3)

/-- `db.updatePatient` (`src/services/db.ts:93`): applies the column patch
(modelled as a row transformer `f`) to every row matching
`.eq('id', id).eq('user_id', userId)`, then `.select().single()`. -/
def updatePatient (id : String) (f : PatientRow → PatientRow)
    (userId : String) (sb : Bool) (dbase : DB) : DB × Except DbErr PatientRow :=
  if ¬sb then (dbase, .error .nullClientDeref) else
  let hit := fun (r : PatientRow) => r.id == id && r.user_id == userId
  let newDb := { dbase with
                 patients := dbase.patients.map (fun r => if hit r then f r else r) }
  match (dbase.patients.filter hit).map f with
  | [r] => (newDb, .ok r)
  | _ => (newDb, .error .singleRowViolation)

/-- `db.deletePatient` (`src/services/db.ts:104`): deletes every row matching
`.eq('id', id).eq('user_id', userId)`. -/
def deletePatient (id : String) (userId : String) (sb : Bool) (dbase : DB) :
    DB × Except DbErr Unit :=
  if ¬sb then (dbase, .error .nullClientDeref) else
  ({ dbase with
     patients := dbase.patients.filter
       (fun r => ¬(r.id == id && r.user_id == userId)) }, .ok ())

/-- `db.getVisits` (`src/services/db.ts:124`): filters visits by `user_id`
(and optionally `doctortype`) only — the `profile` argument is never used and
`clinic_id` is never filtered — ordered by `created_at` descending. -/
def getVisits (userId : String) (_profile : Option Profile)
    (mode : Option String) (sb : Bool) (dbase : DB) :
    Except DbErr (List VisitRow) :=
  if ¬sb then .error .nullClientDeref else
  let q1 := dbase.visits.filter (fun r => r.user_id == userId)
  let q2 := modeFilter VisitRow.doctortype mode q1
  .ok (sortBy (fun a b => strLe b.created_at a.created_at) q2)

/-- `db.addVisit` (`src/services/db.ts:136`): rejects a missing profile,
explicitly rejects a null client, then inserts
`{ ...visit, user_id: userId }` — keeping the payload's `clinic_id` and
stamping `user_id` from the *caller-supplied* `userId` argument. -/
def addVisit (visit : VisitPayload) (userId : String)
    (profile : Option Profile) (sb : Bool) (freshId now : String)
    (dbase : DB) : DB × Except DbErr Unit :=
  match profile with
  | none => (dbase, .error .notAuthenticated)
  | some _ =>
      if ¬sb then (dbase, .error .notConfigured) else
      let row : VisitRow :=
        { id := freshId
          patient_id := visit.patient_id
          clinic_id := visit.clinic_id
          user_id := userId
          doctortype := visit.doctortype
          note := visit.note
          fee := visit.fee
          created_at := now
          extra := visit.extra }
      ({ dbase with visits := dbase.visits ++ [row] }, .ok ())

/-- `db.createExpense` (`src/services/db.ts:173`): rejects a missing profile,
dereferences the (possibly null) client, inserts `{ ...expense,
user_id: userId }` — keeping the payload's `clinic_id` and stamping
`user_id` from the *caller-supplied* `userId` argument — and returns the row. -/
def createExpense (expense : ExpensePayload) (userId : String)
    (profile : Option Profile) (sb : Bool) (freshId : String) (dbase : DB) :
    DB × Except DbErr ExpenseRow :=
  match profile with
  | none => (dbase, .error .notAuthenticated)
  | some _ =>
      if ¬sb then (dbase, .error .nullClientDeref) else
      let row : ExpenseRow :=
        { id := freshId
          clinic_id := expense.clinic_id
          user_id := userId
          amount := expense.amount
          category := expense.category
          note := expense.note
          date := expense.date
          doctortype := expense.doctortype }
      ({ dbase with expenses := dbase.expenses ++ [row] }, .ok row)

/-- `db.getExpenses` (`src/services/db.ts:187`): filters expenses by
`user_id` (and optionally `doctortype`) only — no `clinic_id` filter —
ordered by `date` descending. -/
def getExpenses (userId : String) (_profile : Option Profile)
    (mode : Option String) (sb : Bool) (dbase : DB) :
    Except DbErr (List ExpenseRow) :=
  if ¬sb then .error .nullClientDeref else
  let q1 := dbase.expenses.filter (fun r => r.user_id == userId)
  let q2 := modeFilter ExpenseRow.doctortype mode q1
  .ok (sortBy (fun a b => strLe b.date a.date) q2)

/-- `db.updateExpense` (`src/services/db.ts:199`): patches every row matching
`.eq('id', id).eq('user_id', userId)`, then `.select().single()`. -/
def updateExpense (id : String) (f : ExpenseRow → ExpenseRow)
    (userId : String) (sb : Bool) (dbase : DB) : DB × Except DbErr ExpenseRow :=
  if ¬sb then (dbase, .error .nullClientDeref) else
  let hit := fun (r : ExpenseRow) => r.id == id && r.user_id == userId
  let newDb := { dbase with
                 expenses := dbase.expenses.map (fun r => if hit r then f r else r) }
  match (dbase.expenses.filter hit).map f with
  | [r] => (newDb, .ok r)
  | _ => (newDb, .error .singleRowViolation)

/-- `db.deleteExpense` (`src/services/db.ts:210`): deletes every row matching
`.eq('id', expenseId).eq('user_id', userId)`. -/
def deleteExpense (expenseId : String) (userId : String) (sb : Bool)
    (dbase : DB) : DB × Except DbErr Unit :=
  if ¬sb then (dbase, .error .nullClientDeref) else
  ({ dbase with
     expenses := dbase.expenses.filter
       (fun r => ¬(r.id == expenseId && r.user_id == userId)) }, .ok ())

/-- `db.createAppointment` (`src/services/db.ts:539`): falsiness checks on
profile, userId, doctortype and the two times, then inserts the payload
built from the form and `profile.doctortype` (no `clinic_id` column is
set at all). `toIso` models `new Date(s).toISOString()`. -/
def createAppointment (form : CreateAppointmentForm) (userId : String)
    (profile : Option ApptProfile) (sb : Bool) (freshId : String)
    (toIso : String → String) (dbase : DB) : DB × Except DbErr AppointmentRow :=
  match profile with
  | none => (dbase, .error .notAuthenticated)
  | some p =>
      if userId = "" then (dbase, .error (.requiredField "User ID")) else
      if p.doctortype = "" then (dbase, .error (.requiredField "Doctor type")) else
      if form.start_time = "" then (dbase, .error (.requiredField "Start time")) else
      if form.end_time = "" then (dbase, .error (.requiredField "End time")) else
      if ¬sb then (dbase, .error .nullClientDeref) else
      let row : AppointmentRow :=
        { id := freshId
          patient_id := orNull form.patient_id
          user_id := userId
          title := orNull form.title
          start_time := toIso form.start_time
          end_time := toIso form.end_time
          notes := orNull form.notes
          doctortype := p.doctortype
          status := none }
      ({ dbase with appointments := dbase.appointments ++ [row] }, .ok row)

end db

/-- Result record of `db.getDashboardStats` (`src/services/db.ts:271`). -/
structure DashboardStats where
  patientCount : Nat
  visitsToday : Nat
  visitsThisWeek : Nat
  todayIncome : ℚ
  monthlyIncome : ℚ
  monthlyExpenses : ℚ
  totalRevenue : ℚ
  totalExpenses : ℚ
  profit : ℚ
  recentActivity : List VisitRow
deriving DecidableEq, Repr

namespace db

/-- `db.getDashboardStats` (`src/services/db.ts:271`): pure aggregation of
seven scoped reads. The period boundaries computed from `new Date()` in the
source are explicit string parameters here. Every query filters by
`user_id` (never by `clinic_id`); `gte`/`lt` become `strLe` comparisons on
the ISO timestamp strings. -/
def getDashboardStats (userId : String) (mode : Option String) (sb : Bool)
    (startOfToday endOfToday startOfWeek startOfMonth : String) (dbase : DB) :
    Except DbErr DashboardStats :=
  if ¬sb then .error .nullClientDeref else
  let myPatients := dbase.patients.filter (fun r => r.user_id == userId)
  let myVisits := dbase.visits.filter (fun r => r.user_id == userId)
  let myExpenses := dbase.expenses.filter (fun r => r.user_id == userId)
  -- Total patients: `select('*', { count: 'exact', head: true })`
  let totalPatients := (modeFilter PatientRow.doctortype mode myPatients).length
  -- Visits today: `.gte('created_at', startOfToday).lt('created_at', endOfToday)`
  let visitsTodayData :=
    modeFilter VisitRow.doctortype mode
      ((myVisits.filter (fun v => strLe startOfToday v.created_at)).filter
        (fun v => ¬ strLe endOfToday v.created_at))
  let visitsToday := visitsTodayData.length
  let todayIncome := sumBy VisitRow.fee visitsTodayData
  -- Visits this week: `.gte('created_at', startOfWeek)`, count only
  let visitsThisWeek :=
    (modeFilter VisitRow.doctortype mode
      (myVisits.filter (fun v => strLe startOfWeek v.created_at))).length
  -- Monthly revenue: `.gte('created_at', startOfMonth)`
  let monthlyIncome :=
    sumBy VisitRow.fee
      (modeFilter VisitRow.doctortype mode
        (myVisits.filter (fun v => strLe startOfMonth v.created_at)))
  -- Monthly expenses: `.gte('date', startOfMonth)`
  let monthlyExpenses :=
    sumBy ExpenseRow.amount
      (modeFilter ExpenseRow.doctortype mode
        (myExpenses.filter (fun e => strLe startOfMonth e.date)))
  -- Total revenue / total expenses: user filter (+ mode) only
  let totalRevenue := sumBy VisitRow.fee (modeFilter VisitRow.doctortype mode myVisits)
  let totalExpenses :=
    sumBy ExpenseRow.amount (modeFilter ExpenseRow.doctortype mode myExpenses)
  -- Recent activity: last 10 visits by created_at descending
  let recentActivity :=
    (sortBy (fun a b : VisitRow => strLe b.created_at a.created_at)
      (modeFilter VisitRow.doctortype mode myVisits)).take 10
  .ok
    { patientCount := totalPatients
      visitsToday := visitsToday
      visitsThisWeek := visitsThisWeek
      todayIncome := todayIncome
      monthlyIncome := monthlyIncome
      monthlyExpenses := monthlyExpenses
      totalRevenue := totalRevenue
      totalExpenses := totalExpenses
      profit := monthlyIncome - monthlyExpenses
      recentActivity := recentActivity }

/-- The `user_profiles` backend query of `getUserProfile` / `fetchProfile`:
`.from('user_profiles').select(...).eq('auth_user_id', uid).single()` —
`none` unless exactly one profile row matches. -/
def profileLookup (profilesTable : List Profile) (uid : String) : Option Profile :=
  match profilesTable.filter (fun p => p.auth_user_id == uid) with
  | [p] => some p
  | _ => none

/-- `getUserProfile` (`src/services/db.ts:10`): returns the module-level
`globalUserProfile` cache when set (without touching the backend), returns
`null` when the client is unconfigured, and otherwise performs one backend
resolution round (auth user + profile row). It *never writes* the cache.
The second component counts backend resolution rounds issued by the call. -/
def getUserProfile (globalUserProfile : Option Profile) (sb : Bool)
    (authUser : Option String) (profilesTable : List Profile) :
    Option Profile × Nat :=
  match globalUserProfile with
  | some p => (some p, 0)
  | none =>
      if ¬sb then (none, 0) else
      match authUser with
      | none => (none, 1)
      | some uid => (profileLookup profilesTable uid, 1)

end db

/-- The state touched by `UserProfileContext.tsx`'s `fetchProfile`
(`src/components/UserProfileContext.tsx:42`): the React state
(`profile`, `loading`, `error`, `hasFetched`), the module-level
`globalUserProfile` cache shared with `db.ts`, and a counter of backend
resolution rounds issued so far. -/
structure ResolverState where
  profile : Option Profile
  loading : Bool
  error : Option String
  hasFetched : Bool
  globalUserProfile : Option Profile
  backendCalls : Nat
deriving DecidableEq, Repr

/-- First half of `fetchProfile`, up to the suspension point at the backend
call: the `isAuthenticated || supabase` guard, the `hasFetched` skip, and
the start of the fetch. Returns whether a backend call was started. -/
def fetchStart (isAuthenticated sb : Bool) (s : ResolverState) :
    Bool × ResolverState :=
  if ¬isAuthenticated ∨ ¬sb then
    (false, { s with profile := none, hasFetched := false })
  else if s.hasFetched then (false, s)
  else (true, { s with loading := true, error := none,
                       backendCalls := s.backendCalls + 1 })

/-- Second half of `fetchProfile`, after the backend responded: on success
set `profile`, the `globalUserProfile` cache and `hasFetched`; on failure
set `error`; always clear `loading`. `started = false` means this
invocation returned before reaching the backend call. -/
def fetchFinish (started : Bool) (backend : Option Profile)
    (s : ResolverState) : ResolverState :=
  if ¬started then s
  else
    match backend with
    | some p => { s with profile := some p, globalUserProfile := some p,
                         hasFetched := true, error := none, loading := false }
    | none => { s with error := some "No authenticated user or profile",
                       loading := false }

/-- One complete, non-overlapped `fetchProfile()` invocation. -/
def fetchProfile (isAuthenticated sb : Bool) (backend : Option Profile)
    (s : ResolverState) : ResolverState :=
  let (started, s1) := fetchStart isAuthenticated sb s
  fetchFinish started backend s1

/-- Two overlapping `fetchProfile()` invocations: both pass the
`hasFetched` guard before either completes (the re-entrant schedule
A-start, B-start, A-finish, B-finish). -/
def fetchProfileReentrant (isAuthenticated sb : Bool)
    (backend : Option Profile) (s : ResolverState) : ResolverState :=
  let (startedA, s1) := fetchStart isAuthenticated sb s
  let (startedB, s2) := fetchStart isAuthenticated sb s1
  fetchFinish startedB backend (fetchFinish startedA backend s2)

/-- The resolver state at the start of a session: nothing fetched,
no cache, no backend traffic yet. -/
def freshResolverState : ResolverState :=
  { profile := none, loading := false, error := none, hasFetched := false,
    globalUserProfile := none, backendCalls := 0 }

/-! ## Offline cache and pending-operation queue (`src/services/cache.ts`) -/

/-- A cache entry as serialized by `OfflineCache.set`
(`src/services/cache.ts:29`): `{ data, timestamp, expiresAt? }`.
Timestamps are epoch milliseconds (`Date.now()`), hence `Nat`. -/
structure CacheEntry (V : Type) where
  data : V
  timestamp : Nat
  expiresAt : Option Nat
deriving DecidableEq, Repr

/-- What a `localStorage` cell can hold from the cache's point of view:
the JSON of a well-formed value, or bytes on which `JSON.parse` throws. -/
inductive StoredCell (V : Type) where
  | wellFormed (e : V)
  | malformed
deriving DecidableEq, Repr

/-- The browser `localStorage`, keyed by full key strings. -/
def Store (V : Type) : Type := String → Option (StoredCell V)

/-- The error a cache read can hit internally: `JSON.parse` throwing on a
malformed cell. (`OfflineCache.get` / `getPendingOperations` catch it.) -/
inductive CacheErr where
  | jsonParseError
deriving DecidableEq, Repr

/-- `localStorage.setItem` on the model store. -/
def storePut {V : Type} (store : Store V) (key : String)
    (cell : StoredCell V) : Store V :=
  fun k => if k = key then some cell else store k

/-- `localStorage.removeItem` on the model store. -/
def storeRemove {V : Type} (store : Store V) (key : String) : Store V :=
  fun k => if k = key then none else store k

namespace OfflineCache

/-- `this.CACHE_PREFIX + key` (`CACHE_PREFIX = 'clinictrack_cache_'`). -/
def cacheKey (key : String) : String := "clinictrack_cache_" ++ key

/-- The single key under which the pending-operation queue is stored
(`PENDING_PREFIX + 'operations'`). -/
def pendingKey : String := "clinictrack_pending_operations"

/-- `OfflineCache.set` (`src/services/cache.ts:29`): stores
`{ data, timestamp: Date.now(), expiresAt: expiresIn ? Date.now() +
expiresIn : undefined }`. A (JavaScript-falsy) `expiresIn` of `0` yields
no expiry, exactly as the ternary does. -/
def set {V : Type} (key : String) (data : V) (expiresIn : Option Nat)
    (now : Nat) (store : Store (CacheEntry V)) : Store (CacheEntry V) :=
  let expiresAt : Option Nat :=
    match expiresIn with
    | some t => if t ≠ 0 then some (now + t) else none
    | none => none
  storePut store (cacheKey key)
    (.wellFormed { data := data, timestamp := now, expiresAt := expiresAt })

/-- The body of the `try` block of `OfflineCache.get`
(`src/services/cache.ts:38`): read the cell, `JSON.parse` it (which can
throw), and evict on read when `entry.expiresAt && Date.now() >
entry.expiresAt` (a zero `expiresAt` is falsy and never expires). -/
def getRaw {V : Type} (key : String) (now : Nat)
    (store : Store (CacheEntry V)) :
    Except CacheErr (Option V × Store (CacheEntry V)) :=
  match store (cacheKey key) with
  | none => .ok (none, store)
  | some .malformed => .error .jsonParseError
  | some (.wellFormed e) =>
      match e.expiresAt with
      | some t =>
          if t ≠ 0 ∧ now > t then
            .ok (none, storeRemove store (cacheKey key))
          else .ok (some e.data, store)
      | none => .ok (some e.data, store)

/-- `OfflineCache.get` (`src/services/cache.ts:38`): `getRaw` wrapped in the
source's `try { ... } catch { return null }`. -/
def get {V : Type} (key : String) (now : Nat)
    (store : Store (CacheEntry V)) : Option V × Store (CacheEntry V) :=
  match getRaw key now store with
  | .ok r => r
  | .error _ => (none, store)

/-- `OfflineCache.delete` (`src/services/cache.ts:58`). -/
def delete {V : Type} (key : String) (store : Store (CacheEntry V)) :
    Store (CacheEntry V) :=
  storeRemove store (cacheKey key)

end OfflineCache

/-- A queued offline mutation (`src/services/cache.ts:9`):
`{ id, type, entity, data, timestamp, retryCount }`. -/
structure PendingOp where
  id : String
  type : String
  entity : String
  data : String
  timestamp : Nat
  retryCount : Nat
deriving DecidableEq, Repr

namespace OfflineCache

/-- The body of the `try` block of `OfflineCache.getPendingOperations`
(`src/services/cache.ts:88`). -/
def getPendingOperationsRaw (store : Store (List PendingOp)) :
    Except CacheErr (List PendingOp) :=
  match store pendingKey with
  | none => .ok []
  | some .malformed => .error .jsonParseError
  | some (.wellFormed l) => .ok l

/-- `OfflineCache.getPendingOperations` (`src/services/cache.ts:88`):
wrapped in the source's `try { ... } catch { return [] }`. -/
def getPendingOperations (store : Store (List PendingOp)) : List PendingOp :=
  match getPendingOperationsRaw store with
  | .ok l => l
  | .error _ => []

/-- `OfflineCache.removePendingOperation` (`src/services/cache.ts:98`) on the
parsed queue: `operations.filter(op => op.id !== id)`. -/
def removePendingOperation (id : String) (ops : List PendingOp) :
    List PendingOp :=
  ops.filter (fun op => op.id ≠ id)

/-- `OfflineCache.updatePendingOperation` (`src/services/cache.ts:104`) on the
parsed queue, specialised to the only patch the code ever sends
(`{ retryCount: n }`): patch the *first* entry with the given id, if any. -/
def updatePendingRetry (id : String) (n : Nat) :
    List PendingOp → List PendingOp
  | [] => []
  | op :: rest =>
      if op.id = id then { op with retryCount := n } :: rest
      else op :: updatePendingRetry id n rest

/-- The loop body of `OfflineCache.syncPendingOperations`
(`src/services/cache.ts:188`) for one snapshot entry `op`; `ok` is the
outcome of the simulated replay (`Math.random() > 0.1`). On failure the
stored retry count is set to `op.retryCount + 1`, but the removal test reads
the *snapshot's* `op.retryCount`, so an operation is dropped (with a
`console.warn`) only on a failure that happens when it has already failed
three times before. The second component is the warning, if one was
emitted. -/
def syncStep (q : List PendingOp) (op : PendingOp) (ok : Bool) :
    List PendingOp × Option String :=
  if ok then (removePendingOperation op.id q, none)
  else
    let q1 := updatePendingRetry op.id (op.retryCount + 1) q
    if op.retryCount ≥ 3 then
      (removePendingOperation op.id q1,
       some ("Failed to sync operation after retries: " ++ op.type ++ " " ++ op.entity))
    else (q1, none)

/-- Iteration of `syncStep` over the snapshot list. -/
def syncLoop (outcome : PendingOp → Bool) :
    List PendingOp → List PendingOp → List PendingOp × List String
  | snapshot, q =>
      match snapshot with
      | [] => (q, [])
      | op :: rest =>
          let (q1, w) := syncStep q op (outcome op)
          let (q2, ws) := syncLoop outcome rest q1
          (q2, (w.toList) ++ ws)

/-- `OfflineCache.syncPendingOperations` (`src/services/cache.ts:180`) on the
parsed queue: no-op when offline or when the queue is empty; otherwise one
pass over the snapshot of the queue, collecting the emitted warnings.
`outcome` models the per-operation replay result (`Math.random() > 0.1`). -/
def syncPendingOperations (online : Bool) (outcome : PendingOp → Bool)
    (q : List PendingOp) : List PendingOp × List String :=
  if ¬online then (q, [])
  else if q.isEmpty then (q, [])
  else syncLoop outcome q q

end OfflineCache

/-! ## Environment configuration fallback
(`src/services/supabase.ts`, `src/services/authService.ts`) -/

/-- `pat` occurs as a contiguous substring — JavaScript `s.includes(pat)`. -/
def infixCheck (pat : List Char) : List Char → Bool
  | [] => pat.isEmpty
  | c :: rest => pat.isPrefixOf (c :: rest) || infixCheck pat rest

/-- JavaScript `s.includes(pat)`. -/
def jsIncludes (s pat : String) : Bool := infixCheck pat.toList s.toList

/-- The two environment values (`VITE_SUPABASE_URL`,
`VITE_SUPABASE_ANON_KEY`); `none` models an absent variable. -/
structure EnvConfig where
  url : Option String
  anonKey : Option String
deriving DecidableEq, Repr

/-- `isConfigured` in `src/services/supabase.ts:7`: both values present,
truthy after `.trim()`, and neither holding its placeholder value. -/
def supabaseTsIsConfigured (c : EnvConfig) : Bool :=
  match c.url.map String.trim, c.anonKey.map String.trim with
  | some u, some k =>
      u ≠ "" && k ≠ "" && !(jsIncludes u "your-project-id") &&
        !(jsIncludes k "your_supabase_anon_key_here")
  | _, _ => false

/-- The exported `supabase` handle (`src/services/supabase.ts:23`):
a client when configured, `null` otherwise. The claims only need the
handle's null-ness, so the client itself is `Unit`. -/
def supabaseClient (c : EnvConfig) : Option Unit :=
  if supabaseTsIsConfigured c then some () else none

/-- `isSupabaseConfigured` in `src/services/authService.ts:6` — same test
but on the *untrimmed* values. -/
def authServiceIsConfigured (c : EnvConfig) : Bool :=
  match c.url, c.anonKey with
  | some u, some k =>
      u ≠ "" && k ≠ "" && !(jsIncludes u "your-project-id") &&
        !(jsIncludes k "your_supabase_anon_key_here")
  | _, _ => false

/-- Which identity service `getAuthService` hands out. -/
inductive AuthServiceKind where
  | real
  | mock
deriving DecidableEq, Repr

/-- `getAuthService` (`src/services/authService.ts:8`): the real Supabase
auth module when configured, the local mock module otherwise. -/
def getAuthService (c : EnvConfig) : AuthServiceKind :=
  if authServiceIsConfigured c then .real else .mock

/-! ## Form validation (`src/validations.ts`, zod 3 parse semantics)

zod 3 `_parse` distinguishes *dirty* results (a string/number check or a
`.refine` failed: issues are recorded and parsing continues) from *aborted*
ones (a wrong primitive type or an invalid `z.enum` value: `INVALID` is
returned). All field issues are collected into the thrown `ZodError`
either way, but an object-level `.refine` runs only when no field
*aborted*. `validateForm` folds the issue list into a field-keyed map
(later issues overwrite earlier ones at the same path). -/

/-- An entry of `ZodError.issues`, reduced to (joined path, message). -/
abbrev Issue := String × String

/-- JavaScript `new Date(a) > new Date(b)` on pre-parsed values:
false whenever either side is `NaN`. -/
def jsDateGt : Option Int → Option Int → Bool
  | some x, some y => decide (x > y)
  | _, _ => false

/-- JavaScript `new Date(a) < new Date(b)`: false on `NaN`. -/
def jsDateLt : Option Int → Option Int → Bool
  | some x, some y => decide (x < y)
  | _, _ => false

/-- `isValidDate` (`src/validations.ts:9`): the string parses to a
non-`NaN` date. -/
def isValidDate (parse : String → Option Int) (s : String) : Bool :=
  (parse s).isSome

/-- `isFutureDate` (`src/validations.ts:14`): `new Date(s) > new Date()`. -/
def isFutureDate (parse : String → Option Int) (now : Int) (s : String) : Bool :=
  jsDateGt (parse s) (some now)

/-- `isPastDate` (`src/validations.ts:20`): `new Date(s) < new Date()`. -/
def isPastDate (parse : String → Option Int) (now : Int) (s : String) : Bool :=
  jsDateLt (parse s) (some now)

/-- The hex-digit test of zod's uuid pattern. -/
def isHexDigit (c : Char) : Bool :=
  c.isDigit || ('a' ≤ c && c ≤ 'f') || ('A' ≤ c && c ≤ 'F')

/-- Split a character list on a separator (used to evaluate the uuid
pattern structurally). -/
def splitOnChar (sep : Char) : List Char → List (List Char)
  | [] => [[]]
  | c :: rest =>
      let r := splitOnChar sep rest
      if c = sep then [] :: r
      else
        match r with
        | [] => [[c]]
        | g :: gs => (c :: g) :: gs

/-- zod 3 `z.string().uuid()`: five hyphen-separated hex groups of sizes
8-4-4-4-12. -/
def isUuid (s : String) : Bool :=
  match splitOnChar '-' s.toList with
  | [a, b, c, d, e] =>
      a.length = 8 && b.length = 4 && c.length = 4 && d.length = 4 &&
        e.length = 12 && (a ++ b ++ c ++ d ++ e).all isHexDigit
  | _ => false

/-- Character class of `/^[a-zA-Z\s\-&]+$/` (the expense-category pattern). -/
def categoryChar (c : Char) : Bool :=
  c.isAlpha || c = ' ' || c = '\t' || c = '\n' || c = '\r' || c = '-' || c = '&'

/-- The result shape of `validateForm` (`src/validations.ts:220`):
`{ success, errors? }` with `errors` the field-keyed message map. -/
structure ValidationResult where
  success : Bool
  errors : List (String × String)
deriving DecidableEq, Repr

/-- One step of `error.issues.forEach(err => { errors[path] = err.message })`:
a later message at the same path overwrites the earlier one. -/
def upsertIssue (m : List (String × String)) (kv : Issue) :
    List (String × String) :=
  if m.any (fun e => e.1 = kv.1) then
    m.map (fun e => if e.1 = kv.1 then kv else e)
  else m ++ [kv]

/-- Fold of the issue list into the field-keyed error map. -/
def errorsMap (issues : List Issue) : List (String × String) :=
  issues.foldl upsertIssue []

/-- `validateForm` (`src/validations.ts:220`), parameterised by the
schema's issue computation: `schema.parse` throws a `ZodError` carrying
`issues` iff the list is non-empty, and the `catch` turns it into the
field-keyed map. The function itself never throws. -/
def validateForm {α : Type} (issuesOf : α → List Issue) (data : α) :
    ValidationResult :=
  let issues := issuesOf data
  if issues.isEmpty then { success := true, errors := [] }
  else { success := false, errors := errorsMap issues }

/-- `AppointmentFormData` (`src/validations.ts:276`) as the views build it:
every required field present as a string, optional fields possibly absent. -/
structure AppointmentFormData where
  patient_id : String
  start_time : String
  end_time : String
  status : String
  notes : Option String
  assigned_to : Option String
deriving DecidableEq, Repr

/-- The `z.enum(['scheduled', 'completed', 'cancelled'])` membership test on
`status` — the only check of `AppointmentSchema` that *aborts* the parse of
a string-shaped payload (wrong enum value returns `INVALID`, while failing
string checks and `.refine`s only mark the result dirty). -/
def statusValid (p : AppointmentFormData) : Bool :=
  p.status == "scheduled" || p.status == "completed" || p.status == "cancelled"

/-- Field-level issues of `AppointmentSchema` (`src/validations.ts:179`),
collected in shape order. -/
def appointmentFieldIssues (parse : String → Option Int) (now : Int)
    (p : AppointmentFormData) : List Issue :=
  (if p.patient_id.length < 1 then [("patient_id", "Patient is required")] else []) ++
  (if ¬ isUuid p.patient_id then [("patient_id", "Invalid patient ID")] else []) ++
  (if p.start_time.length < 1 then [("start_time", "Start time is required")] else []) ++
  (if ¬ isValidDate parse p.start_time then
    [("start_time", "Please enter a valid start time")] else []) ++
  (if isPastDate parse now p.start_time then
    [("start_time", "Appointment cannot be in the past")] else []) ++
  (if p.end_time.length < 1 then [("end_time", "End time is required")] else []) ++
  (if ¬ isValidDate parse p.end_time then
    [("end_time", "Please enter a valid end time")] else []) ++
  (if statusValid p then [] else [("status", "Please select a valid status")]) ++
  (match p.notes with
   | none => []
   | some s => if s.length > 1000 then
      [("notes", "Notes must be less than 1000 characters")] else []) ++
  (match p.assigned_to with
   | none => []
   | some s => if ¬ isUuid s then [("assigned_to", "Invalid user ID")] else [])

/-- `AppointmentSchema.parse`'s issue list: field issues, then — only when
no field aborted — the object-level
`.refine(end_time > start_time, { path: ['end_time'] })`. -/
def appointmentIssues (parse : String → Option Int) (now : Int)
    (p : AppointmentFormData) : List Issue :=
  let fieldIssues := appointmentFieldIssues parse now p
  if ¬ statusValid p then fieldIssues
  else if jsDateGt (parse p.end_time) (parse p.start_time) then fieldIssues
  else fieldIssues ++ [("end_time", "End time must be after start time")]

/-- `ExpenseFormData` (`src/validations.ts:273`) as the views build it. -/
structure ExpenseFormData where
  amount : ℚ
  category : String
  note : Option String
  date : String
  doctortype : String
deriving DecidableEq, Repr

/-- Issue list of `ExpenseSchema` (`src/validations.ts:116`). The schema has
no object-level refine, so the aborting `z.enum` on `doctortype` changes
nothing about which issues are collected. The two-decimal refine
`Number(val.toFixed(2)) === val` is read over exact rationals:
`100 * amount` is an integer. -/
def expenseIssues (parse : String → Option Int) (now : Int)
    (p : ExpenseFormData) : List Issue :=
  (if p.amount < 1 / 100 then [("amount", "Amount must be greater than 0")] else []) ++
  (if p.amount > 1000000 then [("amount", "Amount must be less than 1,000,000")] else []) ++
  (if ¬ (100 * p.amount).den = 1 then
    [("amount", "Amount can have at most 2 decimal places")] else []) ++
  (if p.category.length < 1 then [("category", "Category is required")] else []) ++
  (if p.category.length > 100 then
    [("category", "Category must be less than 100 characters")] else []) ++
  (if ¬ (p.category ≠ "" ∧ p.category.toList.all categoryChar) then
    [("category", "Category can only contain letters, spaces, hyphens, and ampersands")] else []) ++
  (match p.note with
   | none => []
   | some s => if s.length > 500 then
      [("note", "Note must be less than 500 characters")] else []) ++
  (if p.date.length < 1 then [("date", "Date is required")] else []) ++
  (if ¬ isValidDate parse p.date then [("date", "Please enter a valid date")] else []) ++
  (if isFutureDate parse now p.date then
    [("date", "Expense date cannot be in the future")] else []) ++
  (if p.doctortype = "GP" ∨ p.doctortype = "GYNO" then []
   else [("doctortype", "Please select a valid doctor type")])

/-! ## Shared lemmas and concrete fixtures -/

theorem mem_modeFilter {α : Type} (d : α → String) (mode : Option String)
    (l : List α) (x : α) (h : x ∈ modeFilter d mode l) : x ∈ l := by
  cases mode with
  | none => exact h
  | some m => exact (List.mem_filter.mp h).1

theorem modeFilter_nil {α : Type} (d : α → String) (mode : Option String) :
    modeFilter d mode [] = [] := by
  cases mode <;> rfl

/-- A profile scoped to clinic `C1`. -/
def profileC1 : Profile :=
  { id := "pr1", clinic_id := "C1", auth_user_id := "u1", role := "admin" }

/-- A visit row created by user `u1` but belonging to clinic `C2` —
reachable through `db.addVisit`, whose payload keeps a caller-supplied
`clinic_id`. -/
def crossVisit : VisitRow :=
  { id := "v1", patient_id := "p1", clinic_id := "C2", user_id := "u1",
    doctortype := "GP", note := "checkup", fee := 100,
    created_at := "2026-01-05T10:00:00Z", extra := "" }

/-- A database holding only the cross-clinic visit row. -/
def dbCross : DB :=
  { patients := [], visits := [crossVisit], expenses := [], appointments := [] }

/-- The empty database. -/
def emptyDB : DB :=
  { patients := [], visits := [], expenses := [], appointments := [] }

/-- A patient row with the caller's `user_id` but a foreign `clinic_id`. -/
def crossPatient : PatientRow :=
  { id := "p9", clinic_id := "C2", user_id := "u1", created_by := "pr9",
    name := "Mira", doctortype := "GP", created_at := "2026-01-03T00:00:00Z",
    demo := "" }

/-- The database of the C1 counterexample. -/
def dbCrossPatients : DB :=
  { patients := [crossPatient], visits := [], expenses := [],
    appointments := [] }

/-- C1 (claim as stated is refuted): the clinic-C1 profile's own
`getVisits` call returns a row whose `clinic_id` is `C2` (`getVisits`
filters by `user_id` only and never by the profile's `clinic_id`), and
`updatePatient` with a known row id happily modifies a row whose
`clinic_id` differs from the caller's clinic — the update filter is
`id` + `user_id`, never `clinic_id`. -/
theorem C1_cross_clinic_visit_returned :
    (db.getVisits "u1" (some profileC1) none true dbCross = .ok [crossVisit] ∧
      crossVisit.clinic_id ≠ profileC1.clinic_id) ∧
    ((db.updatePatient "p9" (fun r => { r with name := "Renamed" }) "u1" true
        dbCrossPatients).1.patients = [{ crossPatient with name := "Renamed" }] ∧
      crossPatient.clinic_id ≠ profileC1.clinic_id ∧
      { crossPatient with name := "Renamed" } ≠ crossPatient) := by
  exact ⟨⟨rfl, by decide⟩, ⟨rfl, by decide, by decide⟩⟩

/-- The table mutation performed by `db.updatePatient`, independently of
whether `.single()` succeeds. -/
theorem updatePatient_patients (id : String) (f : PatientRow → PatientRow)
    (userId : String) (dbase : DB) :
    (db.updatePatient id f userId true dbase).1.patients =
      dbase.patients.map
        (fun r => if r.id == id && r.user_id == userId then f r else r) := by
  simp only [db.updatePatient, not_true, if_false]
  split <;> rfl

/-- The table mutation performed by `db.updateExpense`, independently of
whether `.single()` succeeds. -/
theorem updateExpense_expenses (id : String) (f : ExpenseRow → ExpenseRow)
    (userId : String) (dbase : DB) :
    (db.updateExpense id f userId true dbase).1.expenses =
      dbase.expenses.map
        (fun r => if r.id == id && r.user_id == userId then f r else r) := by
  simp only [db.updateExpense, not_true, if_false]
  split <;> rfl

/-- C1 (amended): the data-access layer scopes by the caller-supplied
`userId` (creator identity), not by clinic: every row returned by
`getVisits`/`getExpenses` has `user_id = userId`; `getPatients` rows
additionally have `clinic_id = profile.clinic_id` whenever the profile's
`clinic_id` is non-empty; and `updatePatient`/`deletePatient`/
`updateExpense`/`deleteExpense` leave every row whose `user_id` differs
from the caller's untouched (rows of the caller's own `user_id` in *other*
clinics are not protected). -/
theorem C1_user_id_scoping (userId : String) (p : Profile)
    (mode : Option String) (dbase : DB) :
    (∀ vs, db.getVisits userId (some p) mode true dbase = .ok vs →
      ∀ v ∈ vs, v.user_id = userId) ∧
    (∀ es, db.getExpenses userId (some p) mode true dbase = .ok es →
      ∀ e ∈ es, e.user_id = userId) ∧
    (∀ ps, db.getPatients userId (some p) mode true dbase = .ok ps →
      ∀ r ∈ ps, r.user_id = userId ∧
        (p.clinic_id ≠ "" → r.clinic_id = p.clinic_id)) ∧
    (∀ id f, ∀ r ∈ dbase.patients, r.user_id ≠ userId →
      r ∈ (db.updatePatient id f userId true dbase).1.patients) ∧
    (∀ id, ∀ r ∈ dbase.patients, r.user_id ≠ userId →
      r ∈ (db.deletePatient id userId true dbase).1.patients) ∧
    (∀ id f, ∀ r ∈ dbase.expenses, r.user_id ≠ userId →
      r ∈ (db.updateExpense id f userId true dbase).1.expenses) ∧
    (∀ id, ∀ r ∈ dbase.expenses, r.user_id ≠ userId →
      r ∈ (db.deleteExpense id userId true dbase).1.expenses) := by
  refine ⟨?_, ?_, ?_, ?_, ?_, ?_, ?_⟩
  · intro vs h v hv
    simp only [db.getVisits, not_true, if_false, Except.ok.injEq] at h
    subst h
    have hv2 := mem_modeFilter _ _ _ _ ((mem_sortBy _ _ _).mp hv)
    have := (List.mem_filter.mp hv2).2
    simpa using this
  · intro es h e he
    simp only [db.getExpenses, not_true, if_false, Except.ok.injEq] at h
    subst h
    have he2 := mem_modeFilter _ _ _ _ ((mem_sortBy _ _ _).mp he)
    have := (List.mem_filter.mp he2).2
    simpa using this
  · intro ps h r hr
    simp only [db.getPatients, not_true, if_false, Except.ok.injEq] at h
    subst h
    have hr2 := mem_modeFilter _ _ _ _ ((mem_sortBy _ _ _).mp hr)
    by_cases hc : p.clinic_id = ""
    · rw [if_neg (by simpa using hc)] at hr2
      refine ⟨by simpa using (List.mem_filter.mp hr2).2, ?_⟩
      intro hne
      exact absurd hc hne
    · rw [if_pos (by simpa using hc)] at hr2
      have h1 := List.mem_filter.mp hr2
      have h2 := List.mem_filter.mp h1.1
      exact ⟨by simpa using h2.2, fun _ => by simpa using h1.2⟩
  · intro id f r hr hne
    rw [updatePatient_patients]
    have himg : (fun x : PatientRow =>
        if x.id == id && x.user_id == userId then f x else x) r = r := by
      have : (r.id == id && r.user_id == userId) = false := by
        simp [hne]
      simp [this]
    exact himg ▸ List.mem_map_of_mem _ hr
  · intro id r hr hne
    simp only [db.deletePatient, not_true, if_false]
    refine List.mem_filter.mpr ⟨hr, ?_⟩
    simp [hne]
  · intro id f r hr hne
    rw [updateExpense_expenses]
    have himg : (fun x : ExpenseRow =>
        if x.id == id && x.user_id == userId then f x else x) r = r := by
      have : (r.id == id && r.user_id == userId) = false := by
        simp [hne]
      simp [this]
    exact himg ▸ List.mem_map_of_mem _ hr
  · intro id r hr hne
    simp only [db.deleteExpense, not_true, if_false]
    refine List.mem_filter.mpr ⟨hr, ?_⟩
    simp [hne]

/-- Witness for `C1_user_id_scoping` at a concrete input. -/
theorem C1_user_id_scoping_witness : crossVisit.user_id = "u1" :=
  (C1_user_id_scoping "u1" profileC1 none dbCross).1 [crossVisit] rfl
    crossVisit (List.mem_singleton.mpr rfl)

/-- The expense payload of the C2 counterexample, carrying a cross-clinic
`clinic_id`. -/
def evilExpense : ExpensePayload :=
  { clinic_id := "C2", amount := 50, category := "Rent", note := "",
    date := "2026-01-05", doctortype := "GP" }

/-- C2 (claim as stated is refuted): `createExpense` called by the
clinic-C1 profile stores the caller-supplied `clinic_id = "C2"` and the
caller-supplied `userId = "u9"` — neither is stamped from the resolved
profile. -/
theorem C2_caller_values_stored :
    (db.createExpense evilExpense "u9" (some profileC1) true "e1" emptyDB).1.expenses =
      [{ id := "e1", clinic_id := "C2", user_id := "u9", amount := 50,
         category := "Rent", note := "", date := "2026-01-05",
         doctortype := "GP" }] ∧
    "C2" ≠ profileC1.clinic_id ∧ "u9" ≠ profileC1.auth_user_id := by
  exact ⟨rfl, by decide, by decide⟩

/-- C2 (amended): every create operation rejects a missing profile with the
`'User not authenticated'` error, and `createPatient` does stamp
`clinic_id`/`user_id` from the resolved profile; but `addVisit` and
`createExpense` store the *caller-supplied* `userId` argument and the
*payload's* `clinic_id`, and `createAppointment` stores the caller-supplied
`userId` and sets no clinic column at all. -/
theorem C2_create_stamping (patient : PatientPayload) (visit : VisitPayload)
    (expense : ExpensePayload) (form : CreateAppointmentForm)
    (userId freshId now : String) (p : Profile) (ap : ApptProfile)
    (toIso : String → String) (dbase : DB) :
    (db.createPatient patient none true freshId now dbase).2 =
      .error .notAuthenticated ∧
    (db.addVisit visit userId none true freshId now dbase).2 =
      .error .notAuthenticated ∧
    (db.createExpense expense userId none true freshId dbase).2 =
      .error .notAuthenticated ∧
    (db.createAppointment form userId none true freshId toIso dbase).2 =
      .error .notAuthenticated ∧
    (∀ r, (db.createPatient patient (some p) true freshId now dbase).2 = .ok r →
      r.clinic_id = p.clinic_id ∧ r.user_id = p.auth_user_id) ∧
    (∃ row, (db.addVisit visit userId (some p) true freshId now dbase).1.visits =
        dbase.visits ++ [row] ∧
      row.user_id = userId ∧ row.clinic_id = visit.clinic_id) ∧
    (∀ r, (db.createExpense expense userId (some p) true freshId dbase).2 = .ok r →
      r.user_id = userId ∧ r.clinic_id = expense.clinic_id) ∧
    (∀ r, (db.createAppointment form userId (some ap) true freshId toIso dbase).2 = .ok r →
      r.user_id = userId ∧ r.doctortype = ap.doctortype) := by
  refine ⟨rfl, rfl, rfl, rfl, ?_, ?_, ?_, ?_⟩
  · intro r h
    simp only [db.createPatient, not_true, if_false, Except.ok.injEq] at h
    subst h
    exact ⟨rfl, rfl⟩
  · exact ⟨_, rfl, rfl, rfl⟩
  · intro r h
    simp only [db.createExpense, not_true, if_false, Except.ok.injEq] at h
    subst h
    exact ⟨rfl, rfl⟩
  · intro r h
    simp only [db.createAppointment, not_true, if_false] at h
    split at h
    · exact absurd h (by simp)
    · split at h
      · exact absurd h (by simp)
      · split at h
        · exact absurd h (by simp)
        · split at h
          · exact absurd h (by simp)
          · simp only [Except.ok.injEq] at h
            subst h
            exact ⟨rfl, rfl⟩

/-- Witness for `C2_create_stamping` at a concrete input. -/
theorem C2_create_stamping_witness :
    ("u9" : String) = "u9" ∧ ("C2" : String) = "C2" :=
  (C2_create_stamping
    { created_by := "pr1", name := "Asha", doctortype := "GP", demo := "" }
    { patient_id := "p1", clinic_id := "C2", doctortype := "GP",
      note := "n", fee := 10, extra := "" }
    evilExpense
    { patient_id := none, title := none, start_time := "s", end_time := "e",
      notes := none }
    "u9" "e1" "t0" profileC1
    { id := "pr1", clinic_id := "C1", auth_user_id := "u1", role := "admin",
      doctortype := "GP" }
    id emptyDB).2.2.2.2.2.2.1
    { id := "e1", clinic_id := "C2", user_id := "u9", amount := 50,
      category := "Rent", note := "", date := "2026-01-05",
      doctortype := "GP" } rfl

/-- C3 (claim as stated is refuted): two re-entrant `fetchProfile()`
invocations that both pass the `hasFetched` guard before either completes
issue two backend resolution rounds — nothing coalesces them into one
in-flight promise, so "at most one backend call in total" fails. -/
theorem C3_reentrant_not_coalesced :
    (fetchProfileReentrant true true (some profileC1) freshResolverState).backendCalls = 2 ∧
    ¬ (fetchProfileReentrant true true (some profileC1)
        freshResolverState).backendCalls ≤ 1 := by
  exact ⟨rfl, by decide⟩

/-- C3 (amended): once a resolution has *completed*, resolving again is
idempotent — the second `fetchProfile()` returns with the state unchanged
(same profile value) and no further backend call, and `db.getUserProfile`
returns the populated shared cache with zero backend rounds. But there is
no in-flight coalescing, and `db.getUserProfile` never populates the cache
itself: on a cache miss each call issues its own backend round. -/
theorem C3_sequential_idempotent (p : Profile) (authUser : Option String)
    (profs : List Profile) :
    fetchProfile true true (some p) (fetchProfile true true (some p) freshResolverState) =
      fetchProfile true true (some p) freshResolverState ∧
    (fetchProfile true true (some p) freshResolverState).backendCalls = 1 ∧
    (fetchProfile true true (some p) freshResolverState).profile = some p ∧
    (fetchProfile true true (some p) freshResolverState).globalUserProfile = some p ∧
    db.getUserProfile (some p) true authUser profs = (some p, 0) ∧
    (db.getUserProfile none true (some p.auth_user_id) [p]).2 +
      (db.getUserProfile none true (some p.auth_user_id) [p]).2 = 2 := by
  refine ⟨rfl, rfl, rfl, rfl, rfl, ?_⟩
  simp [db.getUserProfile]

/-- Witness for `C3_sequential_idempotent` at a concrete input. -/
theorem C3_sequential_idempotent_witness :
    (fetchProfile true true (some profileC1) freshResolverState).backendCalls = 1 :=
  (C3_sequential_idempotent profileC1 none []).2.1

/-- A freshly enqueued pending operation (`retryCount = 0`). -/
def op0 : PendingOp :=
  { id := "op1", type := "create", entity := "patients", data := "payload",
    timestamp := 1000, retryCount := 0 }

/-- C4 (claim as stated is refuted): after its third failed replay attempt
the operation is still in the queue (with `retryCount = 3`) and no warning
has been emitted — the drop test compares the *snapshot's* retry count
with 3, so removal only happens on the fourth failure. -/
theorem C4_survives_third_failure :
    (OfflineCache.syncPendingOperations true (fun _ => false)
      (OfflineCache.syncPendingOperations true (fun _ => false)
        (OfflineCache.syncPendingOperations true (fun _ => false) [op0]).1).1) =
      ([{ op0 with retryCount := 3 }], []) ∧
    [{ op0 with retryCount := 3 }] ≠ ([] : List PendingOp) := by
  exact ⟨rfl, by decide⟩

/-- C4 (amended): a queued operation is dropped, with a warning, after its
*fourth* failed replay attempt, not its third: one failing drain run
increments the stored retry count, and removes the operation exactly when
the snapshot's count was already ≥ 3; a successful replay always removes
it. Consequently a fresh operation survives three failing runs (ending at
`retryCount = 3`) and is removed with a warning by the fourth — it never
remains queued beyond that. -/
theorem C4_dropped_after_fourth_failure (op : PendingOp)
    (outcome : PendingOp → Bool) :
    (outcome op = true →
      OfflineCache.syncPendingOperations true outcome [op] = ([], [])) ∧
    (outcome op = false → op.retryCount < 3 →
      OfflineCache.syncPendingOperations true outcome [op] =
        ([{ op with retryCount := op.retryCount + 1 }], [])) ∧
    (outcome op = false → 3 ≤ op.retryCount →
      OfflineCache.syncPendingOperations true outcome [op] =
        ([], ["Failed to sync operation after retries: " ++ op.type ++ " " ++
              op.entity])) ∧
    (op.retryCount = 0 →
      (OfflineCache.syncPendingOperations true (fun _ => false)
        (OfflineCache.syncPendingOperations true (fun _ => false)
          (OfflineCache.syncPendingOperations true (fun _ => false)
            (OfflineCache.syncPendingOperations true (fun _ => false)
              [op]).1).1).1) =
        ([], ["Failed to sync operation after retries: " ++ op.type ++ " " ++
              op.entity])) := by
  refine ⟨?_, ?_, ?_, ?_⟩
  · intro hok
    simp [OfflineCache.syncPendingOperations, OfflineCache.syncLoop,
      OfflineCache.syncStep, hok, OfflineCache.removePendingOperation]
  · intro hfail hlt
    simp [OfflineCache.syncPendingOperations, OfflineCache.syncLoop,
      OfflineCache.syncStep, hfail, OfflineCache.updatePendingRetry,
      Nat.not_le.mpr hlt]
  · intro hfail hge
    simp [OfflineCache.syncPendingOperations, OfflineCache.syncLoop,
      OfflineCache.syncStep, hfail, OfflineCache.updatePendingRetry,
      OfflineCache.removePendingOperation, hge]
  · intro h0
    simp [OfflineCache.syncPendingOperations, OfflineCache.syncLoop,
      OfflineCache.syncStep, OfflineCache.updatePendingRetry,
      OfflineCache.removePendingOperation, h0]

/-- Witness for `C4_dropped_after_fourth_failure` at a concrete input. -/
theorem C4_dropped_after_fourth_failure_witness :
    OfflineCache.syncPendingOperations true (fun _ => false) [op0] =
      ([{ op0 with retryCount := 1 }], []) :=
  (C4_dropped_after_fourth_failure op0 (fun _ => false)).2.1 rfl (by decide)

/-- Environment with both configuration values absent. -/
def envUnset : EnvConfig := { url := none, anonKey := none }

/-- A patient payload used by the configuration counterexample. -/
def patientPayload0 : PatientPayload :=
  { created_by := "pr1", name := "Asha", doctortype := "GP", demo := "" }

/-- C5 (claim as stated is refuted): with the backend unconfigured the
fallback is detectable (`supabase` is `null`, the mock identity service is
selected) — but `db.createPatient` invoked with a resolved profile
dereferences the `null` client and crashes with a `TypeError`, so "no
data-access operation throws by dereferencing the unconfigured client"
fails. -/
theorem C5_create_crashes_unconfigured :
    supabaseClient envUnset = none ∧
    getAuthService envUnset = .mock ∧
    (db.createPatient patientPayload0 (some profileC1)
      (supabaseClient envUnset).isSome "p1" "t0" emptyDB).2 =
      .error .nullClientDeref := by
  exact ⟨rfl, rfl, rfl⟩

/-- C5 (amended): an absent/placeholder configuration yields a detectable
fallback (`supabase = null`, mock identity service); the *guarded* paths do
not crash — `getUserProfile` resolves to `null` without touching the
client, `getPatients` with no profile returns `[]`, and `addVisit` fails
with its explicit `'Supabase client not configured'` error — but unguarded
data-access operations such as `createPatient` invoked with a resolved
profile fail by dereferencing the `null` client. -/
theorem C5_fallback_mode (c : EnvConfig)
    (h : supabaseTsIsConfigured c = false)
    (ha : authServiceIsConfigured c = false)
    (visit : VisitPayload) (patient : PatientPayload)
    (userId freshId now : String) (p : Profile) (authUser : Option String)
    (profs : List Profile) (dbase : DB) :
    supabaseClient c = none ∧
    getAuthService c = .mock ∧
    db.getUserProfile none (supabaseClient c).isSome authUser profs = (none, 0) ∧
    db.getPatients userId none none (supabaseClient c).isSome dbase = .ok [] ∧
    (db.addVisit visit userId (some p) (supabaseClient c).isSome freshId now
      dbase).2 = .error .notConfigured ∧
    (db.createPatient patient (some p) (supabaseClient c).isSome freshId now
      dbase).2 = .error .nullClientDeref := by
  have hcl : supabaseClient c = none := by
    simp [supabaseClient, h]
  refine ⟨hcl, by simp [getAuthService, ha], ?_, ?_, ?_, ?_⟩
  · rw [hcl]
    cases authUser <;> rfl
  · rw [hcl]
    rfl
  · rw [hcl]
    rfl
  · rw [hcl]
    rfl

/-- Witness for `C5_fallback_mode` at a concrete input. -/
theorem C5_fallback_mode_witness :
    supabaseClient envUnset = none ∧ getAuthService envUnset = .mock :=
  ⟨(C5_fallback_mode envUnset rfl rfl
      { patient_id := "p1", clinic_id := "C1", doctortype := "GP",
        note := "n", fee := 10, extra := "" }
      patientPayload0 "u1" "f1" "t0" profileC1 none [] emptyDB).1,
   (C5_fallback_mode envUnset rfl rfl
      { patient_id := "p1", clinic_id := "C1", doctortype := "GP",
        note := "n", fee := 10, extra := "" }
      patientPayload0 "u1" "f1" "t0" profileC1 none [] emptyDB).2.1⟩

/-- A patient row owned by user `u1`, clinic `C1`. -/
def patientRow0 : PatientRow :=
  { id := "p1", clinic_id := "C1", user_id := "u1", created_by := "pr1",
    name := "Asha", doctortype := "GP", created_at := "2026-01-02T00:00:00Z",
    demo := "" }

/-- A database where user `u1` has one patient but zero visits and zero
expenses (in every period). -/
def dbPatientOnly : DB :=
  { patients := [patientRow0], visits := [], expenses := [], appointments := [] }

/-- C6 (claim as stated is refuted): a caller with zero visits and zero
expenses in the queried period can still have patients, so
`getDashboardStats` succeeds with `patientCount = 1 ≠ 0` — not every
numeric field is zero under the claim's hypothesis. -/
theorem C6_patient_count_not_zero :
    dbPatientOnly.visits = [] ∧ dbPatientOnly.expenses = [] ∧
    ∃ stats, db.getDashboardStats "u1" none true "2026-02-01" "2026-02-02"
      "2026-01-26" "2026-02-01" dbPatientOnly = .ok stats ∧
      stats.patientCount = 1 ∧ stats.patientCount ≠ 0 := by
  exact ⟨rfl, rfl, _, rfl, rfl, by decide⟩

/-- C6 (amended): for a caller with *no rows at all* — zero patients, zero
visits and zero expenses under its `user_id` — `getDashboardStats` returns
a well-defined record with every numeric field equal to `0` (and it is a
pure read: the database value is not modified). -/
theorem C6_zero_rows_zero_stats (userId : String) (mode : Option String)
    (startOfToday endOfToday startOfWeek startOfMonth : String) (dbase : DB)
    (hp : dbase.patients.filter (fun r => r.user_id == userId) = [])
    (hv : dbase.visits.filter (fun r => r.user_id == userId) = [])
    (he : dbase.expenses.filter (fun r => r.user_id == userId) = []) :
    db.getDashboardStats userId mode true startOfToday endOfToday
      startOfWeek startOfMonth dbase =
      .ok { patientCount := 0, visitsToday := 0, visitsThisWeek := 0,
            todayIncome := 0, monthlyIncome := 0, monthlyExpenses := 0,
            totalRevenue := 0, totalExpenses := 0, profit := 0,
            recentActivity := [] } := by
  simp [db.getDashboardStats, hp, hv, he, modeFilter_nil, sumBy, sortBy]

/-- Witness for `C6_zero_rows_zero_stats` at a concrete input. -/
theorem C6_zero_rows_zero_stats_witness :
    db.getDashboardStats "u1" none true "2026-02-01" "2026-02-02"
      "2026-01-26" "2026-02-01" emptyDB =
      .ok { patientCount := 0, visitsToday := 0, visitsThisWeek := 0,
            todayIncome := 0, monthlyIncome := 0, monthlyExpenses := 0,
            totalRevenue := 0, totalExpenses := 0, profit := 0,
            recentActivity := [] } :=
  C6_zero_rows_zero_stats "u1" none "2026-02-01" "2026-02-02" "2026-01-26"
    "2026-02-01" emptyDB rfl rfl rfl

/-- The error map contains an entry for field `k`
(`'k' in errors` on the `validateForm` result). -/
def hasKey (m : List (String × String)) (k : String) : Bool :=
  m.any (fun e => e.1 == k)

theorem hasKey_upsertIssue_true (m : List (String × String)) (kv : Issue)
    (k : String) (h : hasKey m k = true ∨ kv.1 = k) :
    hasKey (upsertIssue m kv) k = true := by
  unfold upsertIssue
  by_cases hb : m.any (fun e => decide (e.1 = kv.1)) = true
  · rw [if_pos hb]
    rcases h with h | h
    · rcases List.any_eq_true.mp h with ⟨e, he, hek⟩
      by_cases hkv : e.1 = kv.1
      · refine List.any_eq_true.mpr ⟨kv, ?_, ?_⟩
        · have himg : (fun x : String × String =>
              if x.1 = kv.1 then kv else x) e = kv := by simp [hkv]
          have hmem := List.mem_map_of_mem
            (fun x : String × String => if x.1 = kv.1 then kv else x) he
          rw [himg] at hmem
          exact hmem
        · simp only [beq_iff_eq] at hek ⊢
          rw [← hkv, hek]
      · refine List.any_eq_true.mpr ⟨e, ?_, hek⟩
        have himg : (fun x : String × String =>
            if x.1 = kv.1 then kv else x) e = e := by simp [hkv]
        have hmem := List.mem_map_of_mem
          (fun x : String × String => if x.1 = kv.1 then kv else x) he
        rw [himg] at hmem
        exact hmem
    · rcases List.any_eq_true.mp hb with ⟨e, he, hekv⟩
      simp only [decide_eq_true_eq] at hekv
      refine List.any_eq_true.mpr ⟨kv, ?_, by simp [h]⟩
      have himg : (fun x : String × String =>
          if x.1 = kv.1 then kv else x) e = kv := by simp [hekv]
      have hmem := List.mem_map_of_mem
        (fun x : String × String => if x.1 = kv.1 then kv else x) he
      rw [himg] at hmem
      exact hmem
  · rw [if_neg hb]
    rcases h with h | h
    · rcases List.any_eq_true.mp h with ⟨e, he, hek⟩
      exact List.any_eq_true.mpr ⟨e, List.mem_append_left _ he, hek⟩
    · exact List.any_eq_true.mpr
        ⟨kv, List.mem_append_right _ (by simp), by simp [h]⟩

theorem hasKey_foldl_upsert (issues : List Issue)
    (m : List (String × String)) (k : String)
    (h : hasKey m k = true ∨ ∃ msg, (k, msg) ∈ issues) :
    hasKey (issues.foldl upsertIssue m) k = true := by
  induction issues generalizing m with
  | nil =>
      rcases h with h | ⟨msg, hmem⟩
      · simpa using h
      · simp at hmem
  | cons kv rest ih =>
      simp only [List.foldl_cons]
      rcases h with h | ⟨msg, hmem⟩
      · exact ih _ (Or.inl (hasKey_upsertIssue_true m kv k (Or.inl h)))
      · rcases List.mem_cons.mp hmem with h1 | h1
        · exact ih _ (Or.inl (hasKey_upsertIssue_true m kv k (Or.inr (by rw [← h1]))))
        · exact ih _ (Or.inr ⟨msg, h1⟩)

theorem hasKey_errorsMap_of_mem (issues : List Issue) (k msg : String)
    (h : (k, msg) ∈ issues) : hasKey (errorsMap issues) k = true :=
  hasKey_foldl_upsert issues [] k (Or.inr ⟨msg, h⟩)

theorem errorsMap_ne_nil (issues : List Issue) (h : issues ≠ []) :
    errorsMap issues ≠ [] := by
  match issues, h with
  | kv :: rest, _ =>
      intro hnil
      have hk := hasKey_errorsMap_of_mem (kv :: rest) kv.1 kv.2 (by simp)
      rw [hnil] at hk
      simp [hasKey] at hk

/-- A date-parse table standing for `new Date(...)` in the concrete
validation scenarios: two valid timestamps an hour apart. -/
def parseFix : String → Option Int := fun s =>
  if s = "2026-01-05T10:00:00Z" then some 100
  else if s = "2026-01-05T11:00:00Z" then some 160
  else none

/-- An appointment payload whose `end_time` equals its `start_time` but
whose `status` holds an invalid enum value. -/
def apptBadStatus : AppointmentFormData :=
  { patient_id := "123e4567-e89b-12d3-a456-426614174000",
    start_time := "2026-01-05T10:00:00Z", end_time := "2026-01-05T10:00:00Z",
    status := "done", notes := none, assigned_to := none }

/-- C7 (claim as stated is refuted): a payload with `end_time = start_time`
but an invalid `status` enum value is rejected, yet its error map has *no*
`end_time` key — the aborting enum failure makes zod skip the object-level
end-after-start refine. -/
theorem C7_enum_abort_skips_end_time_error :
    jsDateGt (parseFix apptBadStatus.end_time)
      (parseFix apptBadStatus.start_time) = false ∧
    (validateForm (appointmentIssues parseFix 50) apptBadStatus).success = false ∧
    hasKey (validateForm (appointmentIssues parseFix 50) apptBadStatus).errors
      "end_time" = false := by
  exact ⟨rfl, rfl, by decide⟩

/-- C7 (amended): for every appointment payload whose `status` is a valid
enum value and whose `end_time` is not after its `start_time` (JavaScript
date comparison), validation fails and the field-keyed error map contains
the key `end_time`; and `validateForm` never surfaces an exception — every
failure is returned as a non-empty field-keyed error map. (When `status`
holds an invalid enum value the payload is still rejected, but the map may
lack the `end_time` key.) -/
theorem C7_end_time_field_error (parse : String → Option Int) (now : Int)
    (p : AppointmentFormData) (hstatus : statusValid p = true)
    (hend : jsDateGt (parse p.end_time) (parse p.start_time) = false) :
    (validateForm (appointmentIssues parse now) p).success = false ∧
    hasKey (validateForm (appointmentIssues parse now) p).errors
      "end_time" = true ∧
    ∀ q : AppointmentFormData,
      (validateForm (appointmentIssues parse now) q).success = false →
      (validateForm (appointmentIssues parse now) q).errors ≠ [] := by
  have hiss : appointmentIssues parse now p =
      appointmentFieldIssues parse now p ++
        [("end_time", "End time must be after start time")] := by
    simp [appointmentIssues, hstatus, hend]
  have hne : (appointmentIssues parse now p).isEmpty = false := by
    rw [hiss]
    simp
  refine ⟨?_, ?_, ?_⟩
  · simp [validateForm, hne]
  · have hmem : ("end_time", "End time must be after start time") ∈
        appointmentIssues parse now p := by
      rw [hiss]
      exact List.mem_append_right _ (by simp)
    simp only [validateForm, hne, if_false, Bool.false_eq_true]
    exact hasKey_errorsMap_of_mem _ _ _ hmem
  · intro q hq
    by_cases hqe : (appointmentIssues parse now q).isEmpty
    · simp [validateForm, hqe] at hq
    · simp only [validateForm, Bool.not_eq_true] at hq ⊢
      rw [if_neg (by simp [hqe])] at hq ⊢
      exact errorsMap_ne_nil _ (by simpa using hqe)

/-- Witness for `C7_end_time_field_error` at a concrete input. -/
theorem C7_end_time_field_error_witness :
    hasKey (validateForm (appointmentIssues parseFix 50)
      { apptBadStatus with status := "scheduled" }).errors "end_time" = true :=
  (C7_end_time_field_error parseFix 50
    { apptBadStatus with status := "scheduled" } (by decide) (by decide)).2.1

/-- C8: for every expense payload whose `date` parses to a future instant,
validation fails and the field-keyed error map contains the key `date` —
so the caller's `validateForm` gate never hands such a payload to the
data-access layer. -/
theorem C8_future_date_rejected (parse : String → Option Int) (now : Int)
    (p : ExpenseFormData) (t : Int) (hparse : parse p.date = some t)
    (hfut : now < t) :
    (validateForm (expenseIssues parse now) p).success = false ∧
    hasKey (validateForm (expenseIssues parse now) p).errors "date" = true := by
  have hf : isFutureDate parse now p.date = true := by
    simp only [isFutureDate, hparse, jsDateGt]
    exact decide_eq_true hfut
  have hmem : ("date", "Expense date cannot be in the future") ∈
      expenseIssues parse now p := by
    simp [expenseIssues, hf, List.mem_append]
  have hne : (expenseIssues parse now p).isEmpty = false :=
    List.isEmpty_eq_false.mpr (List.ne_nil_of_mem hmem)
  constructor
  · simp [validateForm, hne]
  · simp only [validateForm, hne, if_false, Bool.false_eq_true]
    exact hasKey_errorsMap_of_mem _ _ _ hmem

/-- A well-formed expense payload dated in the future. -/
def expenseTomorrow : ExpenseFormData :=
  { amount := 10, category := "Rent", note := none,
    date := "2026-01-05T10:00:00Z", doctortype := "GP" }

/-- Witness for `C8_future_date_rejected` at a concrete input. -/
theorem C8_future_date_rejected_witness :
    (validateForm (expenseIssues parseFix 50) expenseTomorrow).success = false ∧
    hasKey (validateForm (expenseIssues parseFix 50) expenseTomorrow).errors
      "date" = true :=
  C8_future_date_rejected parseFix 50 expenseTomorrow 100 rfl (by decide)

/-- C9: after `set(key, v, ttl)` with a positive ttl, a `get` strictly past
the expiry instant returns `null` and evicts the entry from storage (so a
later `get` also returns `null`), while a `get` at or before the expiry
instant returns the stored value. -/
theorem C9_ttl_expiry (V : Type) (key : String) (v : V)
    (ttl now0 now1 now2 : Nat) (store : Store (CacheEntry V))
    (httl : 0 < ttl) :
    (now0 + ttl < now1 →
      (OfflineCache.get key now1 (OfflineCache.set key v (some ttl) now0 store)).1 = none ∧
      (OfflineCache.get key now1 (OfflineCache.set key v (some ttl) now0 store)).2
        (OfflineCache.cacheKey key) = none ∧
      (OfflineCache.get key now2
        (OfflineCache.get key now1
          (OfflineCache.set key v (some ttl) now0 store)).2).1 = none) ∧
    (now1 ≤ now0 + ttl →
      (OfflineCache.get key now1 (OfflineCache.set key v (some ttl) now0 store)).1 =
        some v) := by
  have hlk : OfflineCache.set key v (some ttl) now0 store
      (OfflineCache.cacheKey key) =
      some (.wellFormed
        { data := v, timestamp := now0, expiresAt := some (now0 + ttl) }) := by
    simp [OfflineCache.set, storePut, Nat.pos_iff_ne_zero.mp httl]
  constructor
  · intro h1
    have hget : OfflineCache.get key now1
        (OfflineCache.set key v (some ttl) now0 store) =
        (none, storeRemove (OfflineCache.set key v (some ttl) now0 store)
          (OfflineCache.cacheKey key)) := by
      simp only [OfflineCache.get, OfflineCache.getRaw, hlk]
      rw [if_pos ⟨by omega, h1⟩]
    refine ⟨by rw [hget], ?_, ?_⟩
    · rw [hget]
      simp [storeRemove]
    · rw [hget]
      simp [OfflineCache.get, OfflineCache.getRaw, storeRemove]
  · intro h2
    have hc : ¬ (now0 + ttl ≠ 0 ∧ now1 > now0 + ttl) := by
      intro hcc
      omega
    simp only [OfflineCache.get, OfflineCache.getRaw, hlk]
    rw [if_neg hc]

/-- Witness for `C9_ttl_expiry` at a concrete input. -/
theorem C9_ttl_expiry_witness :
    (OfflineCache.get "patients" 11
      (OfflineCache.set "patients" (5 : Nat) (some 10) 0 (fun _ => none))).1 =
      none ∧
    (OfflineCache.get "patients" 7
      (OfflineCache.set "patients" (5 : Nat) (some 10) 0 (fun _ => none))).1 =
      some 5 :=
  ⟨((C9_ttl_expiry Nat "patients" 5 10 0 11 0 (fun _ => none) (by decide)).1
      (by decide)).1,
   (C9_ttl_expiry Nat "patients" 5 10 0 7 0 (fun _ => none) (by decide)).2
      (by decide)⟩

/-- C10: cache reads are total on arbitrary (including corrupted) backing
storage: on a malformed cell the internal parse error is caught, `get`
returns `null` with the store untouched and `getPendingOperations` returns
`[]`; and on *any* store a `get` yields either `null` or a value actually
stored under the key — the internal `Except` never escapes. -/
theorem C10_reads_total_on_corruption (V : Type) (key : String) (now : Nat)
    (store : Store (CacheEntry V)) (pstore : Store (List PendingOp))
    (hbad : store (OfflineCache.cacheKey key) = some .malformed)
    (hpbad : pstore OfflineCache.pendingKey = some .malformed) :
    OfflineCache.get key now store = (none, store) ∧
    OfflineCache.getRaw key now store = .error .jsonParseError ∧
    OfflineCache.getPendingOperations pstore = [] ∧
    OfflineCache.getPendingOperationsRaw pstore = .error .jsonParseError ∧
    (∀ store2 : Store (CacheEntry V),
      (OfflineCache.get key now store2).1 = none ∨
      ∃ e, store2 (OfflineCache.cacheKey key) = some (.wellFormed e) ∧
        (OfflineCache.get key now store2).1 = some e.data) := by
  refine ⟨?_, ?_, ?_, ?_, ?_⟩
  · simp [OfflineCache.get, OfflineCache.getRaw, hbad]
  · simp [OfflineCache.getRaw, hbad]
  · simp [OfflineCache.getPendingOperations,
      OfflineCache.getPendingOperationsRaw, hpbad]
  · simp [OfflineCache.getPendingOperationsRaw, hpbad]
  · intro store2
    rcases hs : store2 (OfflineCache.cacheKey key) with _ | cell
    · left
      simp [OfflineCache.get, OfflineCache.getRaw, hs]
    · rcases cell with e | _
      · rcases he : e.expiresAt with _ | t
        · right
          exact ⟨e, rfl, by simp [OfflineCache.get, OfflineCache.getRaw, hs, he]⟩
        · by_cases hc : t ≠ 0 ∧ now > t
          · left
            simp [OfflineCache.get, OfflineCache.getRaw, hs, he, hc]
          · right
            exact ⟨e, rfl,
              by simp [OfflineCache.get, OfflineCache.getRaw, hs, he, hc]⟩
      · left
        simp [OfflineCache.get, OfflineCache.getRaw, hs]

/-- A fully corrupted backing store. -/
def badStore : Store (CacheEntry Nat) := fun _ => some .malformed

/-- A corrupted pending-operations cell. -/
def badPendingStore : Store (List PendingOp) := fun _ => some .malformed

/-- Witness for `C10_reads_total_on_corruption` at a concrete input. -/
theorem C10_reads_total_on_corruption_witness :
    OfflineCache.get "patients" 0 badStore = (none, badStore) ∧
    OfflineCache.getPendingOperations badPendingStore = [] :=
  ⟨(C10_reads_total_on_corruption Nat "patients" 0 badStore badPendingStore
      rfl rfl).1,
   (C10_reads_total_on_corruption Nat "patients" 0 badStore badPendingStore
      rfl rfl).2.2.1⟩
